import Mathlib

/-!
Shallow embedding of the service-request controller of the ThrivePro
repository (src/Backend/controllers/serviceRequestController.js).

The Mongo document stores are modelled as Lean lists; `findOne`/`findById`
become `List.find?` on the corresponding predicate, `Model.create` appends
a record, and `document.save()` rewrites the record with the matching id
in the store.  Each controller returns the resulting store together with
an HTTP-shaped result: `success` with the HTTP code and payload, or
`failure` with an `AppError` (message and HTTP status code), matching the
`next(new AppError(msg, code))` error path, on which no write occurs.
JavaScript `Date` parsing is abstracted as a `String → Option Int`
parameter (milliseconds, `none` for an invalid date), and the creation
instant `new Date()` as an `Int` parameter `now`.  Truthiness of the
request-body fields is the JavaScript one: the empty string and the
number 0 are falsy.  Interpolated fragments of the original error
messages are kept via string concatenation.
-/

namespace ThrivePro

/-- Mirror of utils/appError.js: an operational error carrying a message
and an HTTP status code. -/
structure AppError where
  message : String
  statusCode : Nat
deriving DecidableEq, Repr

/-- Outcome of a controller call: an HTTP success response with a payload,
or an error handed to the error middleware. -/
inductive ControllerResult (α : Type) where
  | success (httpCode : Nat) (value : α)
  | failure (err : AppError)
deriving DecidableEq, Repr

def ControllerResult.isSuccess {α : Type} : ControllerResult α → Bool
  | .success _ _ => true
  | .failure _ => false

/-- The HTTP status code of the error, when the result is a failure. -/
def ControllerResult.errorCode {α : Type} : ControllerResult α → Option Nat
  | .success _ _ => none
  | .failure e => some e.statusCode

/-- A user document, as far as the controller reads it
(User.findOne on _id and role; req.user fields). -/
structure User where
  id : String
  role : String
  phone_number : String
  name : String
deriving DecidableEq, Repr

/-- A service catalog document, as far as the controller reads it
(Service.findOne on name and provider; its _id). -/
structure Service where
  id : Nat
  name : String
  provider : String
deriving DecidableEq, Repr

/-- A ServiceRequest document with the fields written by
createServiceRequest. -/
structure ServiceRequest where
  id : Nat
  customer : String
  provider : String
  service : Nat
  serviceNameSnapshot : String
  servicePriceSnapshot : Int
  customerAddress : String
  customerPhoneNumberSnapshot : String
  customerNameSnapshot : String
  nearestPoint : Option String
  time_slot : Int
  status : String
  createdAt : Int
deriving DecidableEq, Repr

/-- The authenticated user attached to the request (req.user). -/
structure ReqUser where
  id : String
  phone_number : String
  name : String
deriving DecidableEq, Repr

/-- The JSON body of POST /service-requests.  `servicePrice` is a number,
`nearestPoint` is optional, `time_slot` arrives as a string to be parsed. -/
structure CreateBody where
  providerId : String
  serviceName : String
  servicePrice : Int
  customerAddress : String
  nearestPoint : Option String
  time_slot : String
deriving DecidableEq, Repr

def missingFieldsError : AppError :=
  ⟨"Please provide provider, service name, price, address, and time slot.", 400⟩

def invalidProviderError : AppError :=
  ⟨"Invalid service provider selected.", 404⟩

def serviceNotFoundError (serviceName : String) : AppError :=
  ⟨"Service " ++ serviceName ++ " not found for the selected provider. Booking cannot proceed.", 404⟩

def invalidDateError : AppError :=
  ⟨"Invalid date or time format for the time slot.", 400⟩

def pastSlotError : AppError :=
  ⟨"The requested time slot cannot be in the past.", 400⟩

def invalidStatusError (newStatus : String) : AppError :=
  ⟨"Invalid status value " ++ newStatus ++ ". Provider can set status to: accepted, rejected, in-progress, completed.", 400⟩

def requestNotFoundError : AppError :=
  ⟨"Service request not found.", 404⟩

def notAuthorizedError : AppError :=
  ⟨"You are not authorized to update this service request.", 403⟩

def invalidTransitionError (currentStatus newStatus : String) : AppError :=
  ⟨"Cannot change status from " ++ currentStatus ++ " to " ++ newStatus ++ ".", 400⟩

/-- The controller's basic validation:
`!providerId || !serviceName || !servicePrice || !customerAddress || !time_slot`
negated.  Strings are falsy exactly when empty, the number 0 is falsy;
`nearestPoint` is not checked. -/
def requiredFieldsPresent (body : CreateBody) : Bool :=
  body.providerId != "" && body.serviceName != "" && body.servicePrice != 0 &&
    body.customerAddress != "" && body.time_slot != ""

/-- The document handed to ServiceRequest.create by the controller:
snapshots of the body's name/price, contact data from the authenticated
user, the parsed slot, status pending, the generated id and timestamp. -/
def newRequestRecord (reqUser : ReqUser) (body : CreateBody) (serviceId : Nat)
    (requestedDateTime now : Int) (newId : Nat) : ServiceRequest :=
  { id := newId
    customer := reqUser.id
    provider := body.providerId
    service := serviceId
    serviceNameSnapshot := body.serviceName
    servicePriceSnapshot := body.servicePrice
    customerAddress := body.customerAddress
    customerPhoneNumberSnapshot := reqUser.phone_number
    customerNameSnapshot := reqUser.name
    nearestPoint := body.nearestPoint
    time_slot := requestedDateTime
    status := "pending"
    createdAt := now }

/-- exports.createServiceRequest.  `users`, `services`, `store` are the
User, Service and ServiceRequest collections; `parseDate` stands for
`new Date(·)` (none = Invalid Date), `now` for the comparison instant
`new Date()`, and `newId` for the database-generated _id.  Returns the
resulting ServiceRequest store and the HTTP result. -/
def createServiceRequest (users : List User) (services : List Service)
    (store : List ServiceRequest) (reqUser : ReqUser) (body : CreateBody)
    (parseDate : String → Option Int) (now : Int) (newId : Nat) :
    List ServiceRequest × ControllerResult ServiceRequest :=
  if !requiredFieldsPresent body then
    (store, .failure missingFieldsError)
  else
    match users.find? (fun u => u.id == body.providerId && u.role == "provider") with
    | none => (store, .failure invalidProviderError)
    | some _providerUser =>
      match services.find? (fun s => s.name == body.serviceName && s.provider == body.providerId) with
      | none => (store, .failure (serviceNotFoundError body.serviceName))
      | some actualService =>
        match parseDate body.time_slot with
        | none => (store, .failure invalidDateError)
        | some requestedDateTime =>
          if requestedDateTime < now then
            (store, .failure pastSlotError)
          else
            let newServiceRequest : ServiceRequest :=
              newRequestRecord reqUser body actualService.id requestedDateTime now newId
            (store ++ [newServiceRequest], .success 201 newServiceRequest)

/-- The statuses a provider may set
(`allowedStatusesByProvider` in updateServiceRequestStatus).  The code also
guards `!newStatus`; the empty string is not in this list, so membership
alone captures the conjunction for string-valued statuses. -/
def allowedStatusesByProvider : List String :=
  ["accepted", "rejected", "in-progress", "completed"]

/-- The if/else chain defining the valid transitions in
updateServiceRequestStatus. -/
def isValidTransition (currentStatus newStatus : String) : Bool :=
  (currentStatus == "pending" && (newStatus == "accepted" || newStatus == "rejected")) ||
    (currentStatus == "accepted" && newStatus == "in-progress") ||
    (currentStatus == "in-progress" && newStatus == "completed")

/-- exports.updateServiceRequestStatus.  `store` is the ServiceRequest
collection, `requestId` the :id path parameter, `newStatus` the body's
status, `providerId` the authenticated user's id.  `document.save()` is
modelled by rewriting the record with the matching id. -/
def updateServiceRequestStatus (store : List ServiceRequest) (requestId : Nat)
    (newStatus : String) (providerId : String) :
    List ServiceRequest × ControllerResult ServiceRequest :=
  if !(allowedStatusesByProvider.contains newStatus) then
    (store, .failure (invalidStatusError newStatus))
  else
    match store.find? (fun r => r.id == requestId) with
    | none => (store, .failure requestNotFoundError)
    | some serviceRequest =>
      if serviceRequest.provider != providerId then
        (store, .failure notAuthorizedError)
      else if !(isValidTransition serviceRequest.status newStatus) then
        (store, .failure (invalidTransitionError serviceRequest.status newStatus))
      else
        let updated : ServiceRequest := { serviceRequest with status := newStatus }
        (store.map (fun r => if r.id == requestId then updated else r),
          .success 200 updated)

/-! Sample data reused by the concrete witnesses and counterexamples. -/

def sampleProvider : User :=
  { id := "P1", role := "provider", phone_number := "111", name := "Pat" }

def sampleService : Service :=
  { id := 2, name := "Haircut", provider := "P1" }

def sampleReqUser : ReqUser :=
  { id := "C1", phone_number := "555", name := "Alice" }

def sampleBody : CreateBody :=
  { providerId := "P1", serviceName := "Haircut", servicePrice := 100,
    customerAddress := "12 Main St", nearestPoint := none,
    time_slot := "2025-01-01T10:00" }

def sampleRequest : ServiceRequest :=
  { id := 1, customer := "C1", provider := "P1", service := 2,
    serviceNameSnapshot := "Haircut", servicePriceSnapshot := 100,
    customerAddress := "12 Main St", customerPhoneNumberSnapshot := "555",
    customerNameSnapshot := "Alice", nearestPoint := none,
    time_slot := 50, status := "pending", createdAt := 0 }

/-! Helper lemmas shared by the claim theorems. -/

/-- The if/else transition chain holds exactly on the four table pairs. -/
theorem isValidTransition_iff (c n : String) :
    isValidTransition c n = true ↔
      (c = "pending" ∧ n = "accepted") ∨ (c = "pending" ∧ n = "rejected") ∨
        (c = "accepted" ∧ n = "in-progress") ∨ (c = "in-progress" ∧ n = "completed") := by
  simp only [isValidTransition, Bool.or_eq_true, Bool.and_eq_true, beq_iff_eq]
  tauto

/-- Membership in the provider-settable status list, as a proposition. -/
theorem mem_allowed_iff (n : String) :
    n ∈ allowedStatusesByProvider ↔
      n = "accepted" ∨ n = "rejected" ∨ n = "in-progress" ∨ n = "completed" := by
  simp [allowedStatusesByProvider]

/-- C1: for an existing service request owned by the acting provider,
updateServiceRequestStatus succeeds exactly when the (current, requested)
pair is one of (pending, accepted), (pending, rejected),
(accepted, in-progress), (in-progress, completed); on success the stored
status becomes the requested status and the updated record is returned,
and every pair outside the table is rejected. -/
theorem C1_update_transition_table (store : List ServiceRequest) (rid : Nat)
    (ns pid : String) (r : ServiceRequest)
    (hfind : store.find? (fun x => x.id == rid) = some r)
    (hown : r.provider = pid) :
    (((r.status = "pending" ∧ ns = "accepted") ∨ (r.status = "pending" ∧ ns = "rejected") ∨
        (r.status = "accepted" ∧ ns = "in-progress") ∨
        (r.status = "in-progress" ∧ ns = "completed")) →
      updateServiceRequestStatus store rid ns pid =
        (store.map (fun x => if x.id == rid then { r with status := ns } else x),
          .success 200 { r with status := ns })) ∧
    (¬((r.status = "pending" ∧ ns = "accepted") ∨ (r.status = "pending" ∧ ns = "rejected") ∨
        (r.status = "accepted" ∧ ns = "in-progress") ∨
        (r.status = "in-progress" ∧ ns = "completed")) →
      ((updateServiceRequestStatus store rid ns pid).2).isSuccess = false) := by
  subst hown
  constructor
  · intro h
    have hm : ns ∈ allowedStatusesByProvider := by
      rw [mem_allowed_iff]
      rcases h with ⟨_, h⟩ | ⟨_, h⟩ | ⟨_, h⟩ | ⟨_, h⟩ <;> simp [h]
    have ht : isValidTransition r.status ns = true := (isValidTransition_iff _ _).mpr h
    simp [updateServiceRequestStatus, hm, hfind, ht]
  · intro h
    by_cases hm : ns ∈ allowedStatusesByProvider
    · have ht : isValidTransition r.status ns = false := by
        rcases Bool.eq_false_or_eq_true (isValidTransition r.status ns) with htr | hf
        · exact absurd ((isValidTransition_iff _ _).mp htr) h
        · exact hf
      simp [updateServiceRequestStatus, hm, hfind, ht, ControllerResult.isSuccess]
    · simp [updateServiceRequestStatus, hm, ControllerResult.isSuccess]

/-- Witness for C1 at a concrete pending request accepted by its owner. -/
theorem C1_update_transition_table_witness :
    updateServiceRequestStatus [sampleRequest] 1 "accepted" "P1" =
      ([sampleRequest].map
          (fun x => if x.id == 1 then { sampleRequest with status := "accepted" } else x),
        .success 200 { sampleRequest with status := "accepted" }) :=
  (C1_update_transition_table [sampleRequest] 1 "accepted" "P1" sampleRequest rfl rfl).1
    (Or.inl ⟨rfl, rfl⟩)

/-- C2: for an existing service request owned by the acting provider, a
(current, requested) pair outside the transition table makes
updateServiceRequestStatus fail with a 400 error and leaves the store
unchanged. -/
theorem C2_invalid_pair_rejected_unchanged (store : List ServiceRequest) (rid : Nat)
    (ns pid : String) (r : ServiceRequest)
    (hfind : store.find? (fun x => x.id == rid) = some r)
    (hown : r.provider = pid)
    (hpair : ¬((r.status = "pending" ∧ ns = "accepted") ∨
        (r.status = "pending" ∧ ns = "rejected") ∨
        (r.status = "accepted" ∧ ns = "in-progress") ∨
        (r.status = "in-progress" ∧ ns = "completed"))) :
    (updateServiceRequestStatus store rid ns pid).1 = store ∧
      ((updateServiceRequestStatus store rid ns pid).2).errorCode = some 400 := by
  subst hown
  by_cases hm : ns ∈ allowedStatusesByProvider
  · have ht : isValidTransition r.status ns = false := by
      rcases Bool.eq_false_or_eq_true (isValidTransition r.status ns) with htr | hf
      · exact absurd ((isValidTransition_iff _ _).mp htr) hpair
      · exact hf
    simp [updateServiceRequestStatus, hm, hfind, ht, ControllerResult.errorCode,
      invalidTransitionError]
  · simp [updateServiceRequestStatus, hm, ControllerResult.errorCode, invalidStatusError]

/-- Witness for C2: the owner attempts pending → completed. -/
theorem C2_invalid_pair_rejected_unchanged_witness :
    (updateServiceRequestStatus [sampleRequest] 1 "completed" "P1").1 = [sampleRequest] ∧
      ((updateServiceRequestStatus [sampleRequest] 1 "completed" "P1").2).errorCode = some 400 :=
  C2_invalid_pair_rejected_unchanged [sampleRequest] 1 "completed" "P1" sampleRequest
    rfl rfl (by decide)

/-- C3 counterexample: for an existing request and a non-owning provider,
a requested status outside the provider-settable subset (here "pending")
is answered with the 400 invalid-status error, not with 403 Forbidden:
the status check runs before the ownership check. -/
theorem C3_counterexample :
    ((updateServiceRequestStatus [sampleRequest] 1 "pending" "P2").2).errorCode = some 400 ∧
      ((updateServiceRequestStatus [sampleRequest] 1 "pending" "P2").2).errorCode ≠ some 403 :=
  ⟨rfl, by decide⟩

/-- C3 amended: for an existing request and a requested status in the
provider-settable subset, updateServiceRequestStatus by a provider whose
id differs from the record's provider fails with 403 and leaves the store
unchanged, regardless of transition-table validity. -/
theorem C3_forbidden_for_non_owner (store : List ServiceRequest) (rid : Nat)
    (ns pid : String) (r : ServiceRequest)
    (hfind : store.find? (fun x => x.id == rid) = some r)
    (hown : r.provider ≠ pid)
    (hns : ns = "accepted" ∨ ns = "rejected" ∨ ns = "in-progress" ∨ ns = "completed") :
    (updateServiceRequestStatus store rid ns pid).1 = store ∧
      ((updateServiceRequestStatus store rid ns pid).2).errorCode = some 403 := by
  have hm : ns ∈ allowedStatusesByProvider := (mem_allowed_iff ns).mpr hns
  have hb : (r.provider != pid) = true := bne_iff_ne.mpr hown
  simp [updateServiceRequestStatus, hm, hfind, hb, ControllerResult.errorCode,
    notAuthorizedError]

/-- Witness for C3 amended: a non-owner requests a table-valid transition. -/
theorem C3_forbidden_for_non_owner_witness :
    (updateServiceRequestStatus [sampleRequest] 1 "accepted" "P2").1 = [sampleRequest] ∧
      ((updateServiceRequestStatus [sampleRequest] 1 "accepted" "P2").2).errorCode = some 403 :=
  C3_forbidden_for_non_owner [sampleRequest] 1 "accepted" "P2" sampleRequest
    rfl (by decide) (Or.inl rfl)

/-- C5 counterexample: with no stored record for the id and a requested
status outside the provider-settable subset, updateServiceRequestStatus
answers 400 (invalid status), not 404: the status check precedes the
lookup, so the Invalid failure takes precedence, contrary to the claim. -/
theorem C5_counterexample :
    ((updateServiceRequestStatus ([] : List ServiceRequest) 1 "pending" "P1").2).errorCode =
        some 400 ∧
      ((updateServiceRequestStatus ([] : List ServiceRequest) 1 "pending" "P1").2).errorCode ≠
        some 404 :=
  ⟨rfl, by decide⟩

/-- C5 amended: for a request id that resolves to no stored record and a
requested status inside the provider-settable subset,
updateServiceRequestStatus fails with 404 and leaves the store unchanged;
for a status outside the subset the 400 invalid-status failure takes
precedence because the status check runs before the lookup. -/
theorem C5_not_found_for_allowed_status (store : List ServiceRequest) (rid : Nat)
    (ns pid : String)
    (hfind : store.find? (fun x => x.id == rid) = none)
    (hns : ns = "accepted" ∨ ns = "rejected" ∨ ns = "in-progress" ∨ ns = "completed") :
    (updateServiceRequestStatus store rid ns pid).1 = store ∧
      ((updateServiceRequestStatus store rid ns pid).2).errorCode = some 404 := by
  have hm : ns ∈ allowedStatusesByProvider := (mem_allowed_iff ns).mpr hns
  simp [updateServiceRequestStatus, hm, hfind, ControllerResult.errorCode,
    requestNotFoundError]

/-- Witness for C5 amended: empty store, allowed status. -/
theorem C5_not_found_for_allowed_status_witness :
    (updateServiceRequestStatus ([] : List ServiceRequest) 1 "accepted" "P1").1 =
        ([] : List ServiceRequest) ∧
      ((updateServiceRequestStatus ([] : List ServiceRequest) 1 "accepted" "P1").2).errorCode =
        some 404 :=
  C5_not_found_for_allowed_status [] 1 "accepted" "P1" rfl (Or.inl rfl)

/-- C9: a successful updateServiceRequestStatus changes only the status
field of the target record: customer, provider, service reference, the
name and price snapshots, time_slot and createdAt stay as written at
creation, the store rewrites only the record with the matching id, and
every other stored record is still present unchanged. -/
theorem C9_update_changes_only_status (store : List ServiceRequest) (rid : Nat)
    (ns pid : String) (r u : ServiceRequest) (code : Nat)
    (hfind : store.find? (fun x => x.id == rid) = some r)
    (hsucc : (updateServiceRequestStatus store rid ns pid).2 = .success code u) :
    u.customer = r.customer ∧ u.provider = r.provider ∧ u.service = r.service ∧
      u.serviceNameSnapshot = r.serviceNameSnapshot ∧
      u.servicePriceSnapshot = r.servicePriceSnapshot ∧
      u.time_slot = r.time_slot ∧ u.createdAt = r.createdAt ∧ u.status = ns ∧
      (updateServiceRequestStatus store rid ns pid).1 =
        store.map (fun x => if x.id == rid then u else x) ∧
      ∀ x ∈ store, x.id ≠ rid → x ∈ (updateServiceRequestStatus store rid ns pid).1 := by
  by_cases hm : ns ∈ allowedStatusesByProvider
  case neg => simp [updateServiceRequestStatus, hm] at hsucc
  case pos =>
    cases hb : r.provider != pid with
    | true => simp [updateServiceRequestStatus, hm, hfind, hb] at hsucc
    | false =>
      cases ht : isValidTransition r.status ns with
      | false => simp [updateServiceRequestStatus, hm, hfind, hb, ht] at hsucc
      | true =>
        have hres : updateServiceRequestStatus store rid ns pid =
            (store.map (fun x => if x.id == rid then { r with status := ns } else x),
              .success 200 { r with status := ns }) := by
          simp [updateServiceRequestStatus, hm, hfind, hb, ht]
        rw [hres] at hsucc
        injection hsucc with hcode hval
        subst hval
        rw [hres]
        refine ⟨rfl, rfl, rfl, rfl, rfl, rfl, rfl, rfl, rfl, ?_⟩
        intro x hx hne
        refine List.mem_map.mpr ⟨x, hx, ?_⟩
        simp [hne]

/-- Witness for C9: the resulting store only rewrites the updated record. -/
theorem C9_update_changes_only_status_witness :
    (updateServiceRequestStatus [sampleRequest] 1 "accepted" "P1").1 =
      [sampleRequest].map
        (fun x => if x.id == 1 then { sampleRequest with status := "accepted" } else x) := by
  have h := C9_update_changes_only_status [sampleRequest] 1 "accepted" "P1" sampleRequest
    { sampleRequest with status := "accepted" } 200 rfl rfl
  exact h.2.2.2.2.2.2.2.2.1

/-- C4 counterexample: a time slot parsing exactly to the creation
instant is accepted (the code only rejects requestedDateTime strictly
below the comparison instant), while the claim demands that a slot equal
to the creation instant be rejected. -/
theorem C4_counterexample :
    ((createServiceRequest [sampleProvider] [sampleService] [] sampleReqUser sampleBody
        (fun _ => some 100) 100 7).2).isSuccess = true := rfl

/-- C4 amended: with the required fields present and the provider and
service lookups succeeding, createServiceRequest fails with a 400 error
exactly when the slot does not parse or parses strictly earlier than the
comparison instant (a slot equal to that instant is accepted), and on any
failure no record is persisted. -/
theorem C4_invalid_or_past_slot (users : List User) (services : List Service)
    (store : List ServiceRequest) (ru : ReqUser) (body : CreateBody)
    (parseDate : String → Option Int) (now : Int) (newId : Nat)
    (pu : User) (sv : Service)
    (hf : requiredFieldsPresent body = true)
    (hu : users.find? (fun u => u.id == body.providerId && u.role == "provider") = some pu)
    (hs : services.find?
        (fun s => s.name == body.serviceName && s.provider == body.providerId) = some sv) :
    ((parseDate body.time_slot = none ∨
        ∃ t, parseDate body.time_slot = some t ∧ t < now) ↔
      ((createServiceRequest users services store ru body parseDate now newId).2).errorCode =
        some 400) ∧
    (((createServiceRequest users services store ru body parseDate now newId).2).isSuccess =
        false →
      (createServiceRequest users services store ru body parseDate now newId).1 = store) := by
  cases hd : parseDate body.time_slot with
  | none =>
    have hres : createServiceRequest users services store ru body parseDate now newId =
        (store, .failure invalidDateError) := by
      simp [createServiceRequest, hf, hu, hs, hd]
    rw [hres]
    exact ⟨⟨fun _ => rfl, fun _ => Or.inl rfl⟩, fun _ => rfl⟩
  | some t =>
    by_cases hlt : t < now
    · have hres : createServiceRequest users services store ru body parseDate now newId =
          (store, .failure pastSlotError) := by
        simp [createServiceRequest, hf, hu, hs, hd, hlt]
      rw [hres]
      exact ⟨⟨fun _ => rfl, fun _ => Or.inr ⟨t, rfl, hlt⟩⟩, fun _ => rfl⟩
    · have hres : createServiceRequest users services store ru body parseDate now newId =
          (store ++ [newRequestRecord ru body sv.id t now newId],
            .success 201 (newRequestRecord ru body sv.id t now newId)) := by
        simp [createServiceRequest, hf, hu, hs, hd, hlt]
      rw [hres]
      constructor
      · constructor
        · intro h
          rcases h with h | ⟨t', ht', hlt'⟩
          · exact absurd h (by simp)
          · injection ht' with he
            exact absurd (he ▸ hlt') hlt
        · intro h
          exact absurd h (by simp [ControllerResult.errorCode])
      · intro h
        exact absurd h (by simp [ControllerResult.isSuccess])

/-- Witness for C4 amended: an unparsable slot yields the 400 error. -/
theorem C4_invalid_or_past_slot_witness :
    ((createServiceRequest [sampleProvider] [sampleService] [] sampleReqUser sampleBody
        (fun _ => none) 100 7).2).errorCode = some 400 :=
  ((C4_invalid_or_past_slot [sampleProvider] [sampleService] [] sampleReqUser sampleBody
      (fun _ => none) 100 7 sampleProvider sampleService rfl rfl rfl).1).mp (Or.inl rfl)

/-- C6: with the required fields present, when no service with the given
name and provider exists, createServiceRequest fails with 404 and no
ServiceRequest record is created (whatever the provider lookup returns,
both failure paths are 404). -/
theorem C6_service_not_found (users : List User) (services : List Service)
    (store : List ServiceRequest) (ru : ReqUser) (body : CreateBody)
    (parseDate : String → Option Int) (now : Int) (newId : Nat)
    (hf : requiredFieldsPresent body = true)
    (hs : services.find?
        (fun s => s.name == body.serviceName && s.provider == body.providerId) = none) :
    (createServiceRequest users services store ru body parseDate now newId).1 = store ∧
      ((createServiceRequest users services store ru body parseDate now newId).2).errorCode =
        some 404 := by
  cases hu : users.find? (fun u => u.id == body.providerId && u.role == "provider") with
  | none =>
    simp [createServiceRequest, hf, hu, ControllerResult.errorCode, invalidProviderError]
  | some pu =>
    simp [createServiceRequest, hf, hu, hs, ControllerResult.errorCode, serviceNotFoundError]

/-- Witness for C6: no Service document matches (Haircut, P1). -/
theorem C6_service_not_found_witness :
    (createServiceRequest [sampleProvider] [] [] sampleReqUser sampleBody
        (fun _ => some 100) 50 7).1 = [] ∧
      ((createServiceRequest [sampleProvider] [] [] sampleReqUser sampleBody
          (fun _ => some 100) 50 7).2).errorCode = some 404 :=
  C6_service_not_found [sampleProvider] [] [] sampleReqUser sampleBody
    (fun _ => some 100) 50 7 rfl rfl

/-- C7: with the required fields present, when the providerId does not
resolve to a user with role provider, createServiceRequest fails with 404
and no record is persisted. -/
theorem C7_invalid_provider (users : List User) (services : List Service)
    (store : List ServiceRequest) (ru : ReqUser) (body : CreateBody)
    (parseDate : String → Option Int) (now : Int) (newId : Nat)
    (hf : requiredFieldsPresent body = true)
    (hu : users.find? (fun u => u.id == body.providerId && u.role == "provider") = none) :
    (createServiceRequest users services store ru body parseDate now newId).1 = store ∧
      ((createServiceRequest users services store ru body parseDate now newId).2).errorCode =
        some 404 := by
  simp [createServiceRequest, hf, hu, ControllerResult.errorCode, invalidProviderError]

/-- Witness for C7: no user document matches (P1, provider). -/
theorem C7_invalid_provider_witness :
    (createServiceRequest [] [sampleService] [] sampleReqUser sampleBody
        (fun _ => some 100) 50 7).1 = [] ∧
      ((createServiceRequest [] [sampleService] [] sampleReqUser sampleBody
          (fun _ => some 100) 50 7).2).errorCode = some 404 :=
  C7_invalid_provider [] [sampleService] [] sampleReqUser sampleBody
    (fun _ => some 100) 50 7 rfl rfl

/-- C8: every successful createServiceRequest reports HTTP 201, returns a
record with status pending whose name and price snapshots equal the
supplied values, and the resulting store is the old one with exactly that
one record appended. -/
theorem C8_create_success (users : List User) (services : List Service)
    (store : List ServiceRequest) (ru : ReqUser) (body : CreateBody)
    (parseDate : String → Option Int) (now : Int) (newId : Nat)
    (code : Nat) (req : ServiceRequest)
    (hsucc : (createServiceRequest users services store ru body parseDate now newId).2 =
      .success code req) :
    code = 201 ∧ req.status = "pending" ∧ req.serviceNameSnapshot = body.serviceName ∧
      req.servicePriceSnapshot = body.servicePrice ∧
      (createServiceRequest users services store ru body parseDate now newId).1 =
        store ++ [req] := by
  by_cases hf : requiredFieldsPresent body = true
  · cases hu : users.find? (fun u => u.id == body.providerId && u.role == "provider") with
    | none => simp [createServiceRequest, hf, hu] at hsucc
    | some pu =>
      cases hs : services.find?
          (fun s => s.name == body.serviceName && s.provider == body.providerId) with
      | none => simp [createServiceRequest, hf, hu, hs] at hsucc
      | some sv =>
        cases hd : parseDate body.time_slot with
        | none => simp [createServiceRequest, hf, hu, hs, hd] at hsucc
        | some t =>
          by_cases hlt : t < now
          · simp [createServiceRequest, hf, hu, hs, hd, hlt] at hsucc
          · have hres : createServiceRequest users services store ru body parseDate now newId =
                (store ++ [newRequestRecord ru body sv.id t now newId],
                  .success 201 (newRequestRecord ru body sv.id t now newId)) := by
              simp [createServiceRequest, hf, hu, hs, hd, hlt]
            rw [hres] at hsucc
            injection hsucc with hcode hval
            subst hval
            rw [hres]
            exact ⟨hcode.symm, rfl, rfl, rfl, rfl⟩
  · have hf' : requiredFieldsPresent body = false := by
      rcases Bool.eq_false_or_eq_true (requiredFieldsPresent body) with htr | hfa
      · exact absurd htr hf
      · exact hfa
    simp [createServiceRequest, hf'] at hsucc

/-- Witness for C8 at a concrete successful booking. -/
theorem C8_create_success_witness :
    (createServiceRequest [sampleProvider] [sampleService] [] sampleReqUser sampleBody
        (fun _ => some 100) 50 7).1 =
      [] ++ [newRequestRecord sampleReqUser sampleBody 2 100 50 7] :=
  (C8_create_success [sampleProvider] [sampleService] [] sampleReqUser sampleBody
    (fun _ => some 100) 50 7 201
    (newRequestRecord sampleReqUser sampleBody 2 100 50 7) rfl).2.2.2.2

/-- Helper shared with C10: with the required fields all truthy the
missing-fields 400 error is never produced, whatever the collaborators
return. -/
theorem create_ne_missingFieldsError (users : List User) (services : List Service)
    (store : List ServiceRequest) (ru : ReqUser) (body : CreateBody)
    (parseDate : String → Option Int) (now : Int) (newId : Nat)
    (hf : requiredFieldsPresent body = true) :
    ((createServiceRequest users services store ru body parseDate now newId).2) ≠
      .failure missingFieldsError := by
  cases hu : users.find? (fun u => u.id == body.providerId && u.role == "provider") with
  | none =>
    simp only [createServiceRequest, hf, Bool.not_true, Bool.false_eq_true, if_false, hu]
    decide
  | some pu =>
    cases hs : services.find?
        (fun s => s.name == body.serviceName && s.provider == body.providerId) with
    | none =>
      simp [createServiceRequest, hf, hu, hs, serviceNotFoundError, missingFieldsError]
    | some sv =>
      cases hd : parseDate body.time_slot with
      | none =>
        simp only [createServiceRequest, hf, Bool.not_true, Bool.false_eq_true, if_false,
          hu, hs, hd]
        decide
      | some t =>
        by_cases hlt : t < now
        · simp only [createServiceRequest, hf, Bool.not_true, Bool.false_eq_true, if_false,
            hu, hs, hd, if_pos hlt]
          decide
        · simp [createServiceRequest, hf, hu, hs, hd, hlt]

/-- C10: createServiceRequest answers the missing-fields 400 error for
any call in which a required field is present but falsy — a servicePrice
of 0 or an empty providerId, serviceName, customerAddress or time_slot —
and no record is persisted; an absent nearestPoint never triggers that
error when the required fields are truthy. -/
theorem C10_falsy_required_fields (users : List User) (services : List Service)
    (store : List ServiceRequest) (ru : ReqUser) (body : CreateBody)
    (parseDate : String → Option Int) (now : Int) (newId : Nat) :
    ((body.providerId = "" ∨ body.serviceName = "" ∨ body.servicePrice = 0 ∨
        body.customerAddress = "" ∨ body.time_slot = "") →
      createServiceRequest users services store ru body parseDate now newId =
        (store, .failure missingFieldsError)) ∧
    (requiredFieldsPresent body = true →
      ((createServiceRequest users services store ru
          { body with nearestPoint := none } parseDate now newId).2) ≠
        .failure missingFieldsError) := by
  constructor
  · intro h
    have hf : requiredFieldsPresent body = false := by
      rcases h with h | h | h | h | h <;> simp [requiredFieldsPresent, h]
    simp [createServiceRequest, hf]
  · intro hf
    have hf' : requiredFieldsPresent { body with nearestPoint := none } = true := hf
    exact create_ne_missingFieldsError users services store ru
      { body with nearestPoint := none } parseDate now newId hf'

/-- Witness for C10: a supplied price of 0 is refused as missing. -/
theorem C10_falsy_required_fields_witness :
    createServiceRequest [] [] [] sampleReqUser { sampleBody with servicePrice := 0 }
        (fun _ => none) 0 1 = ([], .failure missingFieldsError) :=
  (C10_falsy_required_fields [] [] [] sampleReqUser { sampleBody with servicePrice := 0 }
      (fun _ => none) 0 1).1 (Or.inr (Or.inr (Or.inl rfl)))

end ThrivePro
